import Mathlib

/-!
Shallow embedding of the acadex_backend quiz-attempt and authentication logic
(Django app `quizzes` and `accounts`), for checking the repository's
natural-language specification against the code.

Conventions:
* primary keys (UUIDs in the source) are modelled as `Nat`;
* datetimes are modelled as `Int` (minutes since an arbitrary epoch) and
  durations as `Int` minutes, so `timedelta(minutes=1)` is the integer `1`;
* each Django table is a `List` field of a `DB` record; `QuerySet.filter`
  becomes `List.filter`, `.get`/`.first()` becomes `List.find?`,
  `.exists()` becomes `List.any`;
* a request handler is a function `DB → … → Outcome × DB`; `transaction.atomic`
  rollback on an exception is modelled by returning the unchanged `DB`
  together with the error outcome.
-/

namespace Acadex

/-- `quizzes/models.py` `Quiz`. -/
structure Quiz where
  id : Nat
  course : Nat
  title : String
  quizInstructions : String
  start_date_time : Int
  end_date_time : Int
  number_of_questions : Nat
  allotted_time : Int
  is_active : Bool
deriving Repr, DecidableEq

/-- `quizzes/models.py` `Question`. -/
structure Question where
  id : Nat
  quiz : Nat
  text : String
deriving Repr, DecidableEq

/-- `quizzes/models.py` `Answer`. -/
structure Answer where
  id : Nat
  question : Nat
  text : String
  is_correct : Bool
deriving Repr, DecidableEq

/-- `quizzes/models.py` `QuizAttempt`. -/
structure QuizAttempt where
  attempt_id : Nat
  quiz : Nat
  student : Nat
  score : Nat
  attempt_time : Int
  end_time : Int
deriving Repr, DecidableEq

/-- `quizzes/models.py` `StudentAnswer`. -/
structure StudentAnswer where
  attempt : Nat
  question : Nat
  selected_option : Nat
  is_correct : Bool
deriving Repr, DecidableEq

/-- `courses/models.py` `CourseEnrollment` (the fields the quiz views read). -/
structure CourseEnrollment where
  student : Nat
  course : Nat
deriving Repr, DecidableEq

/-- The relational state the quiz endpoints read and write. -/
structure DB where
  quizzes : List Quiz
  questions : List Question
  answers : List Answer
  attempts : List QuizAttempt
  student_answers : List StudentAnswer
  enrollments : List CourseEnrollment
deriving Repr, DecidableEq

/-- `Quiz.objects.get(id=quiz_id)` / `get_object_or_404(Quiz, id=quiz_id)`. -/
def findQuiz (db : DB) (quizId : Nat) : Option Quiz :=
  db.quizzes.find? (fun q => q.id == quizId)

/-- `CourseEnrollment.objects.filter(student=student, course=quiz.course).exists()`. -/
def isEnrolled (db : DB) (studentId courseId : Nat) : Bool :=
  db.enrollments.any (fun e => e.student == studentId && e.course == courseId)

/-- `QuizAttempt.objects.filter(student=student, quiz=quiz).exists()`. -/
def attemptExists (db : DB) (quizId studentId : Nat) : Bool :=
  db.attempts.any (fun a => a.quiz == quizId && a.student == studentId)

/-- `quiz.questions.exists()`. -/
def questionsExist (db : DB) (quizId : Nat) : Bool :=
  db.questions.any (fun q => q.quiz == quizId)

/-- `QuizAttempt.objects.get(attempt_id=...)` / `get_object_or_404`. -/
def findAttempt (db : DB) (attemptId : Nat) : Option QuizAttempt :=
  db.attempts.find? (fun a => a.attempt_id == attemptId)

/-- `question.answers.all()` (the reverse FK manager). -/
def answersOf (db : DB) (questionId : Nat) : List Answer :=
  db.answers.filter (fun a => a.question == questionId)

/-- `question.answers.filter(is_correct=True).first()`. -/
def correctOption (db : DB) (questionId : Nat) : Option Answer :=
  db.answers.find? (fun a => a.question == questionId && a.is_correct)

/-- Number of `QuizAttempt` rows for a (quiz, student) pair. -/
def countAttempts (db : DB) (quizId studentId : Nat) : Nat :=
  (db.attempts.filter (fun a => a.quiz == quizId && a.student == studentId)).length

/-- Number of `StudentAnswer` rows for an attempt. -/
def countStudentAnswers (db : DB) (attemptId : Nat) : Nat :=
  (db.student_answers.filter (fun sa => sa.attempt == attemptId)).length

/-- An HTTP status in the error classes (4xx/5xx). -/
def statusIsError (s : Nat) : Bool :=
  400 ≤ s

/-! ### Serialized representations (`quizzes/serializers.py`) -/

/-- `AnswerCreateSerializer.to_representation`: the representation is the
field/value list `id`, `text`, `is_correct`; when the serializer context has
`include_correct = False` the `is_correct` key is popped from it. -/
def answerToRepresentation (a : Answer) (include_correct : Bool) : List (String × String) :=
  let rep := [("id", toString a.id), ("text", a.text), ("is_correct", toString a.is_correct)]
  if include_correct then rep else rep.filter (fun kv => kv.fst != "is_correct")

/-- A serialized question: `QuestionCreateSerializer` representation with its
nested answers. -/
structure QuestionRep where
  id : Nat
  text : String
  answers : List (List (String × String))
deriving Repr, DecidableEq

/-- `QuestionCreateSerializer` representation of one question, nesting
`AnswerCreateSerializer` for `question.answers.all()`. -/
def questionToRepresentation (db : DB) (q : Question) (include_correct : Bool) : QuestionRep :=
  { id := q.id
    text := q.text
    answers := (answersOf db q.id).map (fun a => answerToRepresentation a include_correct) }

/-! ### Starting an attempt (`AttemptQuizView.post` + `QuizAttemptCreationSerializer`) -/

/-- Outcome of `POST /quizzes/{id}/attempt`. `refusal s d` is a response with
HTTP status `s` and body `{"detail": d}` and no attempt row created;
`success` carries the created attempt and the serialized question payload. -/
inductive StartOutcome where
  | success (attempt : QuizAttempt) (quiz_questions : List QuestionRep)
  | refusal (status : Nat) (detail : String)
deriving Repr, DecidableEq

/-- `AttemptQuizView.post` (`quizzes/views.py` 582–631) followed by
`QuizAttemptCreationSerializer.validate`/`create`
(`quizzes/serializers.py` 257–291).

`now` is `timezone.now()`, `newId` the UUID drawn for the new row, and
`student` is `getattr(request.user, 'student_profile', None)`.

The branch for a quiz with no questions is `views.py` 604–607: it returns
`Response({"detail": "No questions for this quiz yet."})` with the framework
default status `200`. -/
def startAttempt (db : DB) (now : Int) (newId : Nat) (student : Option Nat)
    (quizId : Nat) : StartOutcome × DB :=
  match findQuiz db quizId with
  | none => (.refusal 404 "Not found.", db)
  | some quiz =>
    match student with
    | none => (.refusal 403 "User is not a student.", db)
    | some sid =>
      if !(isEnrolled db sid quiz.course) then
        (.refusal 400 "You are not enrolled in this course.", db)
      else if attemptExists db quiz.id sid then
        (.refusal 400 "You have already attempted this quiz.", db)
      else if !(questionsExist db quiz.id) then
        (.refusal 200 "No questions for this quiz yet.", db)
      else if attemptExists db quiz.id sid then
        (.refusal 400 "You have already attempted this quiz.", db)
      else if quiz.start_date_time > now then
        (.refusal 400 "Quiz has not started yet.", db)
      else if quiz.end_date_time < now then
        (.refusal 400 "Quiz has already ended.", db)
      else
        let allotted := if quiz.allotted_time == 0 then 0 else quiz.allotted_time
        let scheduled_end := quiz.end_date_time
        let calculated_end := now + allotted
        let final_end := min calculated_end scheduled_end
        let attempt : QuizAttempt :=
          { attempt_id := newId, quiz := quiz.id, student := sid, score := 0
            attempt_time := now, end_time := final_end }
        let payload :=
          (db.questions.filter (fun q => q.quiz == quiz.id)).map
            (fun q => questionToRepresentation db q false)
        (.success attempt payload, { db with attempts := db.attempts ++ [attempt] })

/-! ### Submitting an attempt (`SubmitQuizView.post` + `StudentQuizSubmissionSerializer`) -/

/-- One per-question feedback entry of the submission response
(`StudentQuizSubmissionSerializer.create`). `correct_option_text = none`
models the key being absent (for a correct answer, or for a question with no
correct option); for an unanswered question the source writes the key with
value `None` when no correct option exists, which this model also renders as
`none`. -/
structure FeedbackItem where
  question_id : Nat
  question_text : String
  selected_option_text : Option String
  is_correct : Bool
  correct_option_text : Option String
deriving Repr, DecidableEq

/-- Outcome of `POST /quizzes/attempt/submit`. -/
inductive SubmitOutcome where
  | success (score : Nat) (quiz_questions : List FeedbackItem)
  | failure (status : Nat) (detail : String)
deriving Repr, DecidableEq

/-- `Question.objects.get(id=question_id, quiz=attempt.quiz)`. -/
def findQuestionInQuiz (db : DB) (questionId quizId : Nat) : Option Question :=
  db.questions.find? (fun q => q.id == questionId && q.quiz == quizId)

/-- `Answer.objects.get(id=selected_option_id, question=question)`. -/
def findOptionForQuestion (db : DB) (optionId questionId : Nat) : Option Answer :=
  db.answers.find? (fun a => a.id == optionId && a.question == questionId)

/-- The answered loop of `StudentQuizSubmissionSerializer.create`
(`quizzes/serializers.py` 335–388): resolves each submitted
`(question_id, selected_option_id)` pair against the attempt's quiz, builds
the `StudentAnswer` rows, the running correct count and the feedback items.
`existing` carries the rows already present plus those created earlier in the
same loop: `StudentAnswer` has a real `Meta.unique_together =
('attempt', 'question')`, so a second row for the same question raises an
`IntegrityError` (status 500) and the enclosing `transaction.atomic` rolls
everything back. A failed `.get` raises a `ValidationError` (status 400). -/
def processAnswers (db : DB) (attempt : QuizAttempt) (answers : List (Nat × Nat))
    (existing : List StudentAnswer) :
    Except (Nat × String) (List StudentAnswer × Nat × List FeedbackItem) :=
  match answers with
  | [] => .ok ([], 0, [])
  | (question_id, selected_option_id) :: rest =>
    match findQuestionInQuiz db question_id attempt.quiz with
    | none => .error (400, "Invalid question ID for this quiz.")
    | some question =>
      match findOptionForQuestion db selected_option_id question.id with
      | none => .error (400, "Invalid answer ID for this question.")
      | some selected_option =>
        let is_correct := selected_option.is_correct
        if existing.any (fun sa =>
            sa.attempt == attempt.attempt_id && sa.question == question.id) then
          .error (500, "IntegrityError: duplicate (attempt, question)")
        else
          let row : StudentAnswer :=
            { attempt := attempt.attempt_id, question := question.id
              selected_option := selected_option.id, is_correct := is_correct }
          let item : FeedbackItem :=
            { question_id := question.id, question_text := question.text
              selected_option_text := some selected_option.text
              is_correct := is_correct
              correct_option_text :=
                if is_correct then none
                else (correctOption db question.id).map (fun a => a.text) }
          match processAnswers db attempt rest (existing ++ [row]) with
          | .error e => .error e
          | .ok (rows, cnt, items) =>
            .ok (row :: rows, (if is_correct then 1 else 0) + cnt, item :: items)

/-- The unanswered loop of `StudentQuizSubmissionSerializer.create`
(`quizzes/serializers.py` 390–407): every quiz question whose id was not
answered is reported with `selected_option_text = None`, `is_correct = False`
and the text of its correct option. -/
def unansweredItems (db : DB) (quizId : Nat) (answeredIds : List Nat) : List FeedbackItem :=
  (db.questions.filter (fun q => q.quiz == quizId)).filterMap (fun q =>
    if answeredIds.contains q.id then none
    else some
      { question_id := q.id, question_text := q.text
        selected_option_text := none, is_correct := false
        correct_option_text := (correctOption db q.id).map (fun a => a.text) })

/-- `timedelta(minutes=1)` of `StudentQuizSubmissionSerializer.validate`. -/
def grace_period : Int := 1

/-- `SubmitQuizView.post` (`quizzes/views.py` 704–721) followed by
`StudentQuizSubmissionSerializer.validate`/`create`
(`quizzes/serializers.py` 309–415). `requester` is
`request.user.student_profile` (the `IsStudent` permission guarantees it
exists). On any error the `DB` is returned unchanged
(`transaction.atomic` rollback). -/
def submitQuiz (db : DB) (now : Int) (requester : Nat) (attemptId : Nat)
    (answers : List (Nat × Nat)) : SubmitOutcome × DB :=
  match findAttempt db attemptId with
  | none => (.failure 404 "Not found.", db)
  | some attempt =>
    if requester != attempt.student then
      (.failure 403 "You are not authorized to submit this quiz.", db)
    else if now > attempt.end_time + grace_period then
      (.failure 400 "Submission time has passed.", db)
    else if db.student_answers.any (fun sa => sa.attempt == attempt.attempt_id) then
      (.failure 400 "You have already submitted this quiz.", db)
    else
      match processAnswers db attempt answers db.student_answers with
      | .error (s, d) => (.failure s d, db)
      | .ok (rows, correct_count, items) =>
        let response_data := items ++ unansweredItems db attempt.quiz (rows.map (fun r => r.question))
        let db' : DB :=
          { db with
            student_answers := db.student_answers ++ rows
            attempts := db.attempts.map (fun a =>
              if a.attempt_id == attempt.attempt_id then { a with score := correct_count } else a) }
        (.success correct_count response_data, db')

/-! ### Question authoring (`QuizQuestionView.post`, `QuestionUpdateView.patch`) -/

/-- Payload of one answer option in a question-creation request. An absent
`is_correct` key reads as `False` via `answer.get('is_correct')`. -/
structure AnswerPayload where
  text : String
  is_correct : Bool
deriving Repr, DecidableEq

/-- Payload of one question in the bulk question-creation request. -/
structure QuestionPayload where
  text : String
  answers : List AnswerPayload
deriving Repr, DecidableEq

/-- `QuestionCreateSerializer.validate_answers`
(`quizzes/serializers.py` 157–169): exactly one submitted answer must be
marked correct. -/
def validate_answers (value : List AnswerPayload) : Bool :=
  (value.countP (fun a => a.is_correct)) == 1

/-- Outcome of a question create/update request, body elided on success. -/
inductive OpOutcome where
  | ok
  | err (status : Nat) (detail : String)
deriving Repr, DecidableEq

/-- A fresh primary key for a new `Question` row (`uuid4` in the source:
never collides with an existing row). -/
def freshQuestionId (db : DB) : Nat :=
  (db.questions.map (fun q => q.id)).foldr max 0 + 1

/-- A fresh primary-key base for new `Answer` rows (`uuid4` in the source). -/
def freshAnswerId (db : DB) : Nat :=
  (db.answers.map (fun a => a.id)).foldr max 0 + 1

/-- `QuestionCreateSerializer.create` (`quizzes/serializers.py` 147–155):
creates the `Question` row and bulk-creates its `Answer` rows. -/
def createQuestionWithAnswers (db : DB) (quizId : Nat) (p : QuestionPayload) : DB :=
  let qid := freshQuestionId db
  let base := freshAnswerId db
  let question : Question := { id := qid, quiz := quizId, text := p.text }
  let newAnswers := p.answers.enum.map (fun ia =>
    { id := base + ia.fst, question := qid, text := ia.snd.text
      is_correct := ia.snd.is_correct : Answer })
  { db with questions := db.questions ++ [question], answers := db.answers ++ newAnswers }

/-- `QuizQuestionView.post` (`quizzes/views.py` 317–363): one-time bulk
question population. Rejects when questions already exist, when the payload
size differs from `quiz.number_of_questions`, and when any question fails
`validate_answers` (DRF validates the whole batch before saving anything, so
a failure creates no rows). -/
def addQuestions (db : DB) (quizId : Nat) (payload : List QuestionPayload) :
    OpOutcome × DB :=
  match findQuiz db quizId with
  | none => (.err 403 "Quiz not found.", db)
  | some quiz =>
    if questionsExist db quiz.id then
      (.err 400 "Questions have already been set for this quiz.", db)
    else if payload.length != quiz.number_of_questions then
      (.err 400 "Question count mismatch.", db)
    else if payload.all (fun p => validate_answers p.answers) then
      (.ok, payload.foldl (fun acc p => createQuestionWithAnswers acc quiz.id p) db)
    else
      (.err 400 "Exactly one answer must be marked as correct.", db)

/-- Patch for one existing answer in a question update (`AnswerUpdateSerializer`):
`id` required, `text` and `is_correct` optional. -/
structure AnswerPatch where
  id : Nat
  text : Option String
  is_correct : Option Bool
deriving Repr, DecidableEq

/-- The dict comprehension `{str(a['id']): a for a in answers_data}`:
on duplicate ids the later entry wins. -/
def answerUpdateMap (patches : List AnswerPatch) (answerId : Nat) : Option AnswerPatch :=
  patches.foldl (fun acc p => if p.id == answerId then some p else acc) none

/-- The merged `is_correct` state of one existing answer under the patch map
(the `final_states` computation of `QuestionUpdateSerializer.update`). -/
def mergedCorrect (patches : List AnswerPatch) (a : Answer) : Bool :=
  match answerUpdateMap patches a.id with
  | some p => p.is_correct.getD a.is_correct
  | none => a.is_correct

/-- One step of the apply loop of `QuestionUpdateSerializer.update`: write the
patched `text` and `is_correct` onto an existing answer row. -/
def applyPatch (patches : List AnswerPatch) (a : Answer) : Answer :=
  match answerUpdateMap patches a.id with
  | some p => { a with text := p.text.getD a.text
                       is_correct := p.is_correct.getD a.is_correct }
  | none => a

/-- `QuestionUpdateView.patch` (`quizzes/views.py` 485–512) followed by
`QuestionUpdateSerializer.update` (`quizzes/serializers.py` 202–248):
partial update of a question's text and answers. Every patched answer id must
belong to the question; the merged final answer states must contain exactly
one correct answer, checked before anything is committed (a failure rolls the
whole transaction back, including the `instance.save()` of the text). -/
def updateQuestion (db : DB) (quizId questionId : Nat) (textPatch : Option String)
    (patches : List AnswerPatch) : OpOutcome × DB :=
  match findQuiz db quizId with
  | none => (.err 404 "Quiz not found.", db)
  | some quiz =>
    match db.questions.find? (fun q => q.id == questionId && q.quiz == quiz.id) with
    | none => (.err 404 "Question not found.", db)
    | some question =>
      let existingIds := (answersOf db question.id).map (fun a => a.id)
      if !(patches.all (fun p => existingIds.contains p.id)) then
        (.err 400 "Answer does not belong to this question.", db)
      else
        let finalCorrect := (answersOf db question.id).map (fun a => mergedCorrect patches a)
        if finalCorrect.countP (fun b => b) != 1 then
          (.err 400 "Exactly one answer must be marked as correct after update.", db)
        else
          let db' : DB :=
            { db with
              questions := db.questions.map (fun q =>
                if q.id == question.id then { q with text := textPatch.getD q.text } else q)
              answers := db.answers.map (fun a =>
                if a.question == question.id then applyPatch patches a else a) }
          (.ok, db')

/-! ### Model-layer inserts (`quizzes/models.py`) -/

/-- Model-layer insert of a `QuizAttempt` row. `quizzes/models.py` line 90
declares `unique_together = ('quiz', 'student')` inside `class Mete:` — a
misspelling of `Meta` — so Django installs no uniqueness constraint on
`QuizAttempt` and the insert never compares against existing rows. -/
def insertQuizAttemptRow (db : DB) (row : QuizAttempt) : DB :=
  { db with attempts := db.attempts ++ [row] }

/-- Model-layer insert of a `StudentAnswer` row, which does have
`Meta.unique_together = ('attempt', 'question')` (`quizzes/models.py`
117–118): a duplicate insert raises an `IntegrityError` (`none`). -/
def insertStudentAnswerRow (db : DB) (row : StudentAnswer) : Option DB :=
  if db.student_answers.any (fun sa =>
      sa.attempt == row.attempt && sa.question == row.question) then none
  else some { db with student_answers := db.student_answers ++ [row] }

/-! ### Attempt roster (`QuizAttemptListView.get`) -/

/-- Modelled from the spec: `QuizAttempt.submitted`, read by
`quizzes/views.py` 792/867/972/1037 but not defined in
`src/quizzes/models.py`. The spec defines it: "submitted flag
(submitted = has StudentAnswer rows)". -/
def QuizAttempt.submitted (db : DB) (a : QuizAttempt) : Bool :=
  db.student_answers.any (fun sa => sa.attempt == a.attempt_id)

/-- One roster entry of `QuizAttemptListView.get`. `student` stands for the
rendered `str(attempt.student)` of the student with that id. -/
structure RosterEntry where
  student : Nat
  score : Nat
  attempt_time : Int
  submitted : Bool
deriving Repr, DecidableEq

/-- `QuizAttemptListView.get` (`quizzes/views.py` 774–797): lists, per
attempt on the quiz, the student, score, attempt time and submitted flag;
404 when the quiz does not exist or nobody attempted it. -/
def rosterList (db : DB) (quizId : Nat) : Except (Nat × String) (List RosterEntry) :=
  match findQuiz db quizId with
  | none => .error (404, "Not found.")
  | some quiz =>
    let attempts := db.attempts.filter (fun a => a.quiz == quiz.id)
    if attempts.isEmpty then
      .error (404, "No students has attempted this quiz yet.")
    else
      .ok (attempts.map (fun a =>
        { student := a.student, score := a.score, attempt_time := a.attempt_time
          submitted := QuizAttempt.submitted db a }))

/-! ### Accounts (`accounts/custom_auth.py`, `accounts/views.py`) -/

/-- `accounts/models.py` `User` (the fields the login path reads).
`password` stands for the stored credential; `checkPassword` abstracts
Django's `check_password` hash comparison. -/
structure AUser where
  id : Nat
  first_name : String
  last_name : String
  password : String
  is_active : Bool
  role : String
deriving Repr, DecidableEq

/-- `accounts/models.py` `Student` (with its OneToOne `user`). -/
structure StudentProfile where
  user : AUser
  matric_number : String
deriving Repr, DecidableEq

/-- `accounts/models.py` `Lecturer` (with its OneToOne `user`). -/
structure LecturerProfile where
  user : AUser
  staff_id : String
deriving Repr, DecidableEq

/-- The identity store read by the authentication backend. -/
structure AccountsDB where
  students : List StudentProfile
  lecturers : List LecturerProfile
deriving Repr, DecidableEq

/-- `user.check_password(password)`. -/
def checkPassword (u : AUser) (password : String) : Bool :=
  u.password == password

/-- `Student.objects.get(matric_number=username)` (matric is unique). -/
def findStudentByMatric (db : AccountsDB) (username : String) : Option StudentProfile :=
  db.students.find? (fun s => s.matric_number == username)

/-- `Lecturer.objects.get(staff_id=username)` (staff id is unique). -/
def findLecturerByStaffId (db : AccountsDB) (username : String) : Option LecturerProfile :=
  db.lecturers.find? (fun l => l.staff_id == username)

/-- `AcadexAuthBackend.authenticate` (`accounts/custom_auth.py` 15–39):
student table checked first, then lecturer table; returns the matching user
when the password checks out, `none` otherwise. The function never reads
`is_active`. -/
def authenticate (db : AccountsDB) (username password : String) : Option AUser :=
  if username == "" || password == "" then none
  else
    let tryLecturer :=
      match findLecturerByStaffId db username with
      | some l => if checkPassword l.user password then some l.user else none
      | none => none
    match findStudentByMatric db username with
    | some s => if checkPassword s.user password then some s.user else tryLecturer
    | none => tryLecturer

/-- Response of `POST /accounts/token` (`LoginView.post`,
`accounts/views.py` 120–142). `tokensFor = some u` models
`create_tokens_for_user(user)` having issued an access/refresh pair for `u`. -/
structure LoginResponse where
  status : Nat
  tokensFor : Option AUser
deriving Repr, DecidableEq

/-- `LoginView.post`: validates the credential fields, runs
`acadex_auth.authenticate`, and returns 200 with tokens on success or 401 on
failure. -/
def loginPost (db : AccountsDB) (username password : String) : LoginResponse :=
  if username == "" || password == "" then
    { status := 400, tokensFor := none }
  else
    match authenticate db username password with
    | some user => { status := 200, tokensFor := some user }
    | none => { status := 401, tokensFor := none }

/-! ### Helper lemmas -/

theorem findQuiz_eq_id {db : DB} {quizId : Nat} {quiz : Quiz}
    (h : findQuiz db quizId = some quiz) : quiz.id = quizId := by
  unfold findQuiz at h
  have := List.find?_some h
  simpa using this

theorem findQuiz_mem {db : DB} {quizId : Nat} {quiz : Quiz}
    (h : findQuiz db quizId = some quiz) : quiz ∈ db.quizzes :=
  List.mem_of_find?_eq_some h

theorem countAttempts_eq_zero {db : DB} {q s : Nat}
    (h : attemptExists db q s = false) : countAttempts db q s = 0 := by
  unfold attemptExists at h
  unfold countAttempts
  simp only [List.any_eq_false] at h
  simp only [List.length_eq_zero, List.filter_eq_nil_iff]
  intro a ha
  exact h a ha

/-- Anatomy of a successful `startAttempt`: the quiz was found, the caller is
an enrolled student with no prior attempt, the quiz has questions, now lies in
the scheduling window, and the new attempt row and payload have the given
shapes. -/
theorem startAttempt_success_elim {db : DB} {now : Int} {newId sid quizId : Nat}
    {att : QuizAttempt} {payload : List QuestionRep} {db' : DB}
    (h : startAttempt db now newId (some sid) quizId = (.success att payload, db')) :
    ∃ quiz, findQuiz db quizId = some quiz ∧
      isEnrolled db sid quiz.course = true ∧
      attemptExists db quiz.id sid = false ∧
      questionsExist db quiz.id = true ∧
      quiz.start_date_time ≤ now ∧ now ≤ quiz.end_date_time ∧
      att = { attempt_id := newId, quiz := quiz.id, student := sid, score := 0
              attempt_time := now
              end_time := min (now + quiz.allotted_time) quiz.end_date_time } ∧
      payload = (db.questions.filter (fun q => q.quiz == quiz.id)).map
        (fun q => questionToRepresentation db q false) ∧
      db' = { db with attempts := db.attempts ++ [att] } := by
  unfold startAttempt at h
  split at h
  · simp at h
  next quiz hfq =>
    dsimp only at h
    split at h
    next h1 => simp at h
    next h1 =>
      simp at h1
      split at h
      next h2 => simp at h
      next h2 =>
        simp at h2
        split at h
        next h3 => simp at h
        next h3 =>
          simp at h3
          split at h
          next h4 => simp at h
          next h4 =>
            split at h
            next h5 => simp at h
            next h5 =>
              split at h
              next h6 =>
                have h0 : quiz.allotted_time = 0 := by simpa using h6
                injection h with hL hdb
                injection hL with ha hp
                subst ha hp hdb
                exact ⟨quiz, hfq, h1, h2, h3, by omega, by omega, by simp [h0], rfl, rfl⟩
              next h6 =>
                injection h with hL hdb
                injection hL with ha hp
                subst ha hp hdb
                exact ⟨quiz, hfq, h1, h2, h3, by omega, by omega, rfl, rfl, rfl⟩

/-! ### Concrete fixtures for witnesses -/

/-- A quiz open on `[0, 30]` with a two-hour (120-minute) allotment. -/
def quizW : Quiz :=
  { id := 1, course := 1, title := "W", quizInstructions := "w"
    start_date_time := 0, end_date_time := 30, number_of_questions := 1
    allotted_time := 120, is_active := true }

/-- One question with one correct option for `quizW`, student 1 enrolled. -/
def dbW : DB :=
  { quizzes := [quizW]
    questions := [{ id := 10, quiz := 1, text := "Q1" }]
    answers := [{ id := 100, question := 10, text := "A", is_correct := true }]
    attempts := [], student_answers := []
    enrollments := [{ student := 1, course := 1 }] }

/-- The attempt row `startAttempt dbW 0 7 (some 1) 1` creates. -/
def attW : QuizAttempt :=
  { attempt_id := 7, quiz := 1, student := 1, score := 0, attempt_time := 0, end_time := 30 }

/-- The stripped question payload returned with `attW`. -/
def payloadW : List QuestionRep :=
  [{ id := 10, text := "Q1", answers := [[("id", "100"), ("text", "A")]] }]

/-- `dbW` after the attempt row is created. -/
def dbW' : DB := { dbW with attempts := [attW] }

/-- Like `dbW` but with no questions authored yet. -/
def dbNoQuestions : DB := { dbW with questions := [], answers := [] }

/-- A completely empty database. -/
def emptyDB : DB := { quizzes := [], questions := [], answers := [], attempts := []
                      student_answers := [], enrollments := [] }

/-! ### C2: attempt end time -/

/-- C2: for every successful `start_attempt` at time `now`, the created
attempt's `end_time` equals `min(now + quiz.allotted_time,
quiz.end_date_time)`. -/
theorem startAttempt_end_time_min {db : DB} {now : Int} {newId sid quizId : Nat}
    {quiz : Quiz} {att : QuizAttempt} {payload : List QuestionRep} {db' : DB}
    (hq : findQuiz db quizId = some quiz)
    (h : startAttempt db now newId (some sid) quizId = (.success att payload, db')) :
    att.end_time = min (now + quiz.allotted_time) quiz.end_date_time := by
  obtain ⟨quiz', hq', _, _, _, _, _, ha, _, _⟩ := startAttempt_success_elim h
  rw [hq] at hq'
  injection hq' with he
  subst he
  rw [ha]

/-- Witness for C2, the spec's capped scenario: allotted time 120, quiz end 30,
attempt started at 0; the created attempt ends at `min(0 + 120, 30) = 30`. -/
theorem startAttempt_end_time_min_witness :
    startAttempt dbW 0 7 (some 1) 1 = (.success attW payloadW, dbW') ∧
    attW.end_time = min ((0 : Int) + 120) 30 ∧ attW.end_time = 30 :=
  ⟨by decide, @startAttempt_end_time_min dbW 0 7 1 1 quizW attW payloadW dbW'
      (by decide) (by decide), by decide⟩

/-! ### C7: refusals for missing questions and out-of-window starts -/

/-- C7 as amended: past the student / enrollment / duplicate-attempt gates,
`start_attempt` refuses a quiz with no questions by returning the detail
message with HTTP status 200 (the framework default — not an error status)
and creating no attempt row, and rejects an out-of-window start with a 400
error, creating no attempt row. -/
theorem startAttempt_refusals (db : DB) (now : Int) (newId sid quizId : Nat) (quiz : Quiz)
    (hq : findQuiz db quizId = some quiz)
    (henr : isEnrolled db sid quiz.course = true)
    (hatt : attemptExists db quiz.id sid = false) :
    (questionsExist db quiz.id = false →
      startAttempt db now newId (some sid) quizId =
        (.refusal 200 "No questions for this quiz yet.", db)) ∧
    (questionsExist db quiz.id = true → now < quiz.start_date_time →
      startAttempt db now newId (some sid) quizId =
        (.refusal 400 "Quiz has not started yet.", db)) ∧
    (questionsExist db quiz.id = true → quiz.start_date_time ≤ now →
        quiz.end_date_time < now →
      startAttempt db now newId (some sid) quizId =
        (.refusal 400 "Quiz has already ended.", db)) := by
  refine ⟨fun hqn => ?_, fun hqn hlt => ?_, fun hqn hge hlt => ?_⟩
  · simp [startAttempt, hq, henr, hatt, hqn]
  · have h4 : quiz.start_date_time > now := hlt
    simp [startAttempt, hq, henr, hatt, hqn, h4]
  · have h4 : ¬quiz.start_date_time > now := by omega
    simp [startAttempt, hq, henr, hatt, hqn, h4, hlt]

/-- Witness for the amended C7: with questions authored and `now = 40` past
the quiz end 30, the start is rejected with a 400; with no questions and
`now = 10` inside the window, the refusal carries status 200. -/
theorem startAttempt_refusals_witness :
    startAttempt dbW 40 7 (some 1) 1 = (.refusal 400 "Quiz has already ended.", dbW) ∧
    startAttempt dbNoQuestions 10 7 (some 1) 1 =
      (.refusal 200 "No questions for this quiz yet.", dbNoQuestions) :=
  ⟨(startAttempt_refusals dbW 40 7 1 1 quizW (by decide) (by decide) (by decide)).2.2
      (by decide) (by decide) (by decide),
    (startAttempt_refusals dbNoQuestions 10 7 1 1 quizW (by decide) (by decide)
      (by decide)).1 (by decide)⟩

/-- Counterexample to C7 as stated: at a concrete state with an enrolled
student, an open window and no questions, `start_attempt` creates no attempt
but returns status 200, which is not an error status, contradicting "an error
result is returned". -/
theorem startAttempt_no_questions_status_not_error :
    (startAttempt dbNoQuestions 10 99 (some 1) 1).fst =
      .refusal 200 "No questions for this quiz yet." ∧
    statusIsError 200 = false := by
  exact ⟨by decide, by decide⟩

/-! ### C8: the attempt payload never reveals the correct option -/

/-- C8: for every successful `start_attempt`, no serialized answer in the
returned question payload carries an `is_correct` key. -/
theorem startAttempt_payload_hides_is_correct {db : DB} {now : Int}
    {newId sid quizId : Nat} {att : QuizAttempt} {payload : List QuestionRep} {db' : DB}
    (h : startAttempt db now newId (some sid) quizId = (.success att payload, db')) :
    ∀ qr ∈ payload, ∀ ar ∈ qr.answers, ∀ kv ∈ ar, kv.fst ≠ "is_correct" := by
  obtain ⟨quiz, _, _, _, _, _, _, _, hp, _⟩ := startAttempt_success_elim h
  subst hp
  intro qr hqr ar har kv hkv
  simp only [List.mem_map] at hqr
  obtain ⟨q, hq, rfl⟩ := hqr
  simp only [questionToRepresentation, List.mem_map] at har
  obtain ⟨a, ha, rfl⟩ := har
  simp only [answerToRepresentation, Bool.false_eq_true, if_false, ite_false] at hkv
  have hmem := List.mem_filter.mp hkv
  simpa using hmem.2

/-- Witness for C8 at the concrete `dbW` start. -/
theorem startAttempt_payload_hides_is_correct_witness :
    startAttempt dbW 0 7 (some 1) 1 = (.success attW payloadW, dbW') ∧
    ∀ qr ∈ payloadW, ∀ ar ∈ qr.answers, ∀ kv ∈ ar, kv.fst ≠ "is_correct" :=
  ⟨by decide, @startAttempt_payload_hides_is_correct dbW 0 7 1 1 attW payloadW dbW'
      (by decide)⟩

/-! ### C5: a second start is a conflict and leaves one attempt row -/

/-- C5: after a successful `start_attempt` for a (quiz, student) pair, a
second `start_attempt` for the same pair fails with the 400 "already
attempted" conflict, creates no row, and exactly one attempt row exists for
the pair. -/
theorem startAttempt_twice_conflict {db db₁ : DB} {now₁ now₂ : Int}
    {id₁ id₂ sid quizId : Nat} {att : QuizAttempt} {payload : List QuestionRep}
    (h : startAttempt db now₁ id₁ (some sid) quizId = (.success att payload, db₁)) :
    startAttempt db₁ now₂ id₂ (some sid) quizId =
      (.refusal 400 "You have already attempted this quiz.", db₁) ∧
    countAttempts db₁ quizId sid = 1 := by
  obtain ⟨quiz, hq, henr, hatt, hqn, _, _, ha, hp, hdb⟩ := startAttempt_success_elim h
  have hid : quiz.id = quizId := findQuiz_eq_id hq
  subst hdb
  constructor
  · have hq1 : findQuiz { db with attempts := db.attempts ++ [att] } quizId = some quiz := hq
    have henr1 : isEnrolled { db with attempts := db.attempts ++ [att] } sid quiz.course
        = true := henr
    have hattEx : attemptExists { db with attempts := db.attempts ++ [att] } quiz.id sid
        = true := by
      unfold attemptExists
      simp [List.any_append, ha]
    simp [startAttempt, hq1, henr1, hattEx]
  · have h0 : countAttempts db quizId sid = 0 := by
      apply countAttempts_eq_zero
      rw [hid] at hatt
      exact hatt
    unfold countAttempts at h0 ⊢
    rw [show ({ db with attempts := db.attempts ++ [att] } : DB).attempts
        = db.attempts ++ [att] from rfl]
    rw [List.filter_append, List.length_append, h0]
    simp [ha, hid]

/-- Witness for C5 at the concrete `dbW` start. -/
theorem startAttempt_twice_conflict_witness :
    startAttempt dbW 0 7 (some 1) 1 = (.success attW payloadW, dbW') ∧
    startAttempt dbW' 5 8 (some 1) 1 =
      (.refusal 400 "You have already attempted this quiz.", dbW') ∧
    countAttempts dbW' 1 1 = 1 :=
  ⟨by decide,
    (@startAttempt_twice_conflict dbW dbW' 0 5 7 8 1 1 attW payloadW (by decide)).1,
    (@startAttempt_twice_conflict dbW dbW' 0 5 7 8 1 1 attW payloadW (by decide)).2⟩

/-! ### C6: the model layer does not enforce (quiz, student) uniqueness -/

/-- Evaluation of the C6 failing input: because `quizzes/models.py` spells the
options class `Mete` instead of `Meta`, the declared
`unique_together = ('quiz', 'student')` is never installed, and two
`QuizAttempt` rows for the same (quiz, student) pair coexist after two
model-layer inserts; the `StudentAnswer` constraint, declared under a real
`Meta`, does reject its duplicate. -/
theorem quizAttempt_uniqueness_not_enforced :
    countAttempts
      (insertQuizAttemptRow
        (insertQuizAttemptRow emptyDB
          { attempt_id := 1, quiz := 1, student := 1, score := 0
            attempt_time := 0, end_time := 30 })
        { attempt_id := 2, quiz := 1, student := 1, score := 0
          attempt_time := 5, end_time := 30 }) 1 1 = 2 ∧
    insertStudentAnswerRow
      { emptyDB with student_answers :=
          [{ attempt := 1, question := 10, selected_option := 100, is_correct := true }] }
      { attempt := 1, question := 10, selected_option := 101, is_correct := false }
      = none := by
  exact ⟨by decide, by decide⟩

/-! ### C4: late and repeated submissions are rejected without writes -/

/-- C4: for a submission by the attempt's owner, the call fails when `now`
exceeds `end_time` plus the fixed 1-minute grace period; it fails when the
attempt already has `StudentAnswer` rows; and every failed call leaves the
attempt's `StudentAnswer` row count unchanged. -/
theorem submitQuiz_late_or_resubmit_rejected {db : DB} {now : Int} {attemptId : Nat}
    {attempt : QuizAttempt} (answers : List (Nat × Nat))
    (hfa : findAttempt db attemptId = some attempt) :
    (now > attempt.end_time + grace_period →
      submitQuiz db now attempt.student attemptId answers =
        (.failure 400 "Submission time has passed.", db)) ∧
    (now ≤ attempt.end_time + grace_period →
      (∃ sa ∈ db.student_answers, sa.attempt = attempt.attempt_id) →
      submitQuiz db now attempt.student attemptId answers =
        (.failure 400 "You have already submitted this quiz.", db)) ∧
    (∀ s d db', submitQuiz db now attempt.student attemptId answers = (.failure s d, db') →
      countStudentAnswers db' attempt.attempt_id =
        countStudentAnswers db attempt.attempt_id) := by
  refine ⟨fun hlate => ?_, fun hok hex => ?_, fun s d db' hfail => ?_⟩
  · simp [submitQuiz, hfa, hlate]
  · have hnl : ¬(now > attempt.end_time + grace_period) := by omega
    have hany : db.student_answers.any (fun sa => sa.attempt == attempt.attempt_id) = true := by
      obtain ⟨sa, hmem, heq⟩ := hex
      exact List.any_eq_true.mpr ⟨sa, hmem, by simp [heq]⟩
    simp [submitQuiz, hfa, hnl, hany]
  · unfold submitQuiz at hfail
    rw [hfa] at hfail
    dsimp only at hfail
    rw [bne_self_eq_false] at hfail
    simp only [Bool.false_eq_true, if_false, ite_false] at hfail
    split at hfail
    · injection hfail with h1 h2
      rw [h2]
    · split at hfail
      · injection hfail with h1 h2
        rw [h2]
      · split at hfail
        · injection hfail with h1 h2
          rw [h2]
        · simp at hfail

/-- `dbW'` after the attempt has one recorded answer. -/
def dbSubmitted : DB :=
  { dbW' with student_answers :=
      [{ attempt := 7, question := 10, selected_option := 100, is_correct := true }] }

/-- Witness for C4: a repeat submission and a submission at
`end_time + 2` minutes are both rejected and write nothing (the spec's late
scenario: `attW.end_time = 30`, call at 32). -/
theorem submitQuiz_late_or_resubmit_rejected_witness :
    submitQuiz dbSubmitted 10 1 7 [] =
      (.failure 400 "You have already submitted this quiz.", dbSubmitted) ∧
    submitQuiz dbW' 32 1 7 [(10, 100)] =
      (.failure 400 "Submission time has passed.", dbW') ∧
    countStudentAnswers dbSubmitted 7 = 1 :=
  ⟨((@submitQuiz_late_or_resubmit_rejected dbSubmitted 10 7 attW [] (by decide)).2.1
      (by decide)
      ⟨{ attempt := 7, question := 10, selected_option := 100, is_correct := true },
        by decide, by decide⟩),
    ((@submitQuiz_late_or_resubmit_rejected dbW' 32 7 attW [(10, 100)] (by decide)).1
      (by decide)),
    by decide⟩

/-! ### C9: the roster's submitted flag -/

/-- C9 (with `QuizAttempt.submitted` modelled from the spec): every entry of
the instructor's attempt roster comes from an attempt on the quiz, carries
that attempt's student, score and start time, and its `submitted` flag is
true exactly when the attempt has at least one `StudentAnswer` row. -/
theorem rosterList_entries {db : DB} {quizId : Nat} {entries : List RosterEntry}
    (h : rosterList db quizId = .ok entries) :
    ∀ e ∈ entries, ∃ a, a ∈ db.attempts ∧ a.quiz = quizId ∧
      e.student = a.student ∧ e.score = a.score ∧ e.attempt_time = a.attempt_time ∧
      (e.submitted = true ↔ ∃ sa ∈ db.student_answers, sa.attempt = a.attempt_id) := by
  unfold rosterList at h
  split at h
  · simp at h
  next quiz hq =>
    have hid : quiz.id = quizId := findQuiz_eq_id hq
    dsimp only at h
    split at h
    · simp at h
    · injection h with h
      subst h
      intro e he
      simp only [List.mem_map] at he
      obtain ⟨a, ha, rfl⟩ := he
      have hmem := List.mem_filter.mp ha
      refine ⟨a, hmem.1, ?_, rfl, rfl, rfl, ?_⟩
      · have : (a.quiz == quiz.id) = true := hmem.2
        simp only [beq_iff_eq] at this
        rw [this, hid]
      · unfold QuizAttempt.submitted
        rw [List.any_eq_true]
        constructor
        · rintro ⟨sa, hsa, hbeq⟩
          exact ⟨sa, hsa, by simpa using hbeq⟩
        · rintro ⟨sa, hsa, hbeq⟩
          exact ⟨sa, hsa, by simpa using hbeq⟩

/-- Two attempts on `quizW`: attempt 7 (student 1) has a recorded answer,
attempt 8 (student 2) has none. -/
def dbRoster : DB :=
  { dbSubmitted with
    attempts := dbSubmitted.attempts ++
      [{ attempt_id := 8, quiz := 1, student := 2, score := 0
         attempt_time := 2, end_time := 30 }]
    enrollments := dbSubmitted.enrollments ++ [{ student := 2, course := 1 }] }

/-- Witness for C9 on `dbRoster`: the roster reports student 1 as submitted
(score 1 is carried through) and student 2 as not submitted. -/
theorem rosterList_entries_witness :
    rosterList dbRoster 1 = .ok
      [{ student := 1, score := 0, attempt_time := 0, submitted := true },
       { student := 2, score := 0, attempt_time := 2, submitted := false }] ∧
    ∀ e ∈ [({ student := 1, score := 0, attempt_time := 0, submitted := true } : RosterEntry),
           { student := 2, score := 0, attempt_time := 2, submitted := false }],
      ∃ a, a ∈ dbRoster.attempts ∧ a.quiz = 1 ∧
        e.student = a.student ∧ e.score = a.score ∧ e.attempt_time = a.attempt_time ∧
        (e.submitted = true ↔ ∃ sa ∈ dbRoster.student_answers, sa.attempt = a.attempt_id) :=
  ⟨by rfl, rosterList_entries (by rfl)⟩

/-! ### C10: authentication ignores the is_active flag -/

/-- C10: with non-empty credentials, whenever the student row matching the
username has a user whose stored password matches, `authenticate` returns
that user and `POST /accounts/token` answers 200 with tokens for them; when
no student match succeeds and the lecturer row matching the username has a
matching password, the same holds for the lecturer's user. Nothing
constrains `is_active`: the backend never reads it, so a deactivated user
logs in all the same. -/
theorem authenticate_ignores_is_active (db : AccountsDB) (username password : String)
    (hu : username ≠ "") (hp : password ≠ "") :
    (∀ s, findStudentByMatric db username = some s →
      checkPassword s.user password = true →
      authenticate db username password = some s.user ∧
      loginPost db username password = { status := 200, tokensFor := some s.user }) ∧
    (∀ l, (∀ s, findStudentByMatric db username = some s →
        checkPassword s.user password = false) →
      findLecturerByStaffId db username = some l →
      checkPassword l.user password = true →
      authenticate db username password = some l.user ∧
      loginPost db username password = { status := 200, tokensFor := some l.user }) := by
  have hu' : (username == "") = false := by simpa using hu
  have hp' : (password == "") = false := by simpa using hp
  constructor
  · intro s hs hpw
    have hauth : authenticate db username password = some s.user := by
      unfold authenticate
      rw [hu', hp']
      simp only [Bool.false_eq_true, Bool.or_self, if_false, ite_false]
      rw [hs]
      dsimp only
      rw [hpw]
      simp
    exact ⟨hauth, by unfold loginPost; rw [hu', hp']; simp [hauth]⟩
  · intro l hnos hl hpw
    have hauth : authenticate db username password = some l.user := by
      unfold authenticate
      rw [hu', hp']
      simp only [Bool.false_eq_true, Bool.or_self, if_false, ite_false]
      cases hs : findStudentByMatric db username with
      | none => simp [hl, hpw]
      | some s =>
        have := hnos s hs
        simp [this, hl, hpw]
    exact ⟨hauth, by unfold loginPost; rw [hu', hp']; simp [hauth]⟩

/-- A deactivated student user whose stored password matches. -/
def inactiveUserW : AUser :=
  { id := 3, first_name := "Ina", last_name := "Active", password := "pw"
    is_active := false, role := "STUDENT" }

/-- Identity store holding only the deactivated student. -/
def accountsW : AccountsDB :=
  { students := [{ user := inactiveUserW, matric_number := "MAT1" }], lecturers := [] }

/-- Witness for C10: the deactivated user authenticates and receives tokens. -/
theorem authenticate_ignores_is_active_witness :
    inactiveUserW.is_active = false ∧
    authenticate accountsW "MAT1" "pw" = some inactiveUserW ∧
    loginPost accountsW "MAT1" "pw" = { status := 200, tokensFor := some inactiveUserW } :=
  ⟨by decide,
    ((authenticate_ignores_is_active accountsW "MAT1" "pw" (by decide) (by decide)).1
      { user := inactiveUserW, matric_number := "MAT1" } (by decide) (by decide)).1,
    ((authenticate_ignores_is_active accountsW "MAT1" "pw" (by decide) (by decide)).1
      { user := inactiveUserW, matric_number := "MAT1" } (by decide) (by decide)).2⟩

/-! ### C1: scoring and unanswered-question feedback -/

theorem findQuestionInQuiz_eq {db : DB} {qid quizId : Nat} {q : Question}
    (h : findQuestionInQuiz db qid quizId = some q) : q.id = qid ∧ q.quiz = quizId := by
  unfold findQuestionInQuiz at h
  have := List.find?_some h
  simpa [Bool.and_eq_true, beq_iff_eq] using this

/-- The claim's characterization of the score: the number of submitted
(question, option) pairs whose selected option is marked correct. -/
def submittedCorrectCount (db : DB) (quizId : Nat) (answers : List (Nat × Nat)) : Nat :=
  answers.countP (fun p =>
    match findQuestionInQuiz db p.fst quizId with
    | none => false
    | some q =>
      match findOptionForQuestion db p.snd q.id with
      | none => false
      | some a => a.is_correct)

/-- Anatomy of a successful answered loop: the created rows answer exactly
the submitted question ids in order, the running count is the number of
correctly answered submissions, and every row belongs to the attempt. -/
theorem processAnswers_ok {db : DB} {attempt : QuizAttempt} :
    ∀ {answers : List (Nat × Nat)} {existing rows : List StudentAnswer}
      {cnt : Nat} {items : List FeedbackItem},
      processAnswers db attempt answers existing = .ok (rows, cnt, items) →
      rows.map (fun r => r.question) = answers.map (fun p => p.fst) ∧
      cnt = submittedCorrectCount db attempt.quiz answers ∧
      (∀ r ∈ rows, r.attempt = attempt.attempt_id) := by
  intro answers
  induction answers with
  | nil =>
    intro existing rows cnt items h
    unfold processAnswers at h
    injection h with h
    injection h with h1 h2
    injection h2 with h2 h3
    subst h1 h2 h3
    simp [submittedCorrectCount]
  | cons p rest ih =>
    obtain ⟨qid, oid⟩ := p
    intro existing rows cnt items h
    unfold processAnswers at h
    split at h
    · simp at h
    next question hq =>
      split at h
      · simp at h
      next selected ho =>
        dsimp only at h
        split at h
        · simp at h
        next hdup =>
          split at h
          next e herr => simp at h
          next rows' cnt' items' hrec =>
            injection h with h
            injection h with h1 h2
            injection h2 with h2 h3
            subst h1 h2 h3
            obtain ⟨hmap, hc, hall⟩ := ih hrec
            obtain ⟨hqid, hquiz⟩ := findQuestionInQuiz_eq hq
            refine ⟨?_, ?_, ?_⟩
            · simp [hmap, hqid]
            · rw [hc]
              unfold submittedCorrectCount
              rw [List.countP_cons]
              have hpred : (fun (p : Nat × Nat) =>
                  match findQuestionInQuiz db p.fst attempt.quiz with
                  | none => false
                  | some q =>
                    match findOptionForQuestion db p.snd q.id with
                    | none => false
                    | some a => a.is_correct) (qid, oid) = selected.is_correct := by
                simp [hq, ho]
              cases hic : selected.is_correct
              all_goals simp [submittedCorrectCount, hpred, hic]
              all_goals omega
            · intro r hr
              rcases List.mem_cons.mp hr with rfl | hr'
              · rfl
              · exact hall r hr'

/-- C1: a submission the code accepts persists `attempt.score` as the number
of submitted answers whose selected option is correct, creates no
`StudentAnswer` row for any quiz question absent from the submission, and
reports every such question as unanswered (`selected_option_text = None`,
`is_correct = False`) with the correct option's text. -/
theorem submitQuiz_scoring {db : DB} {now : Int} {requester attemptId : Nat}
    {answers : List (Nat × Nat)} {attempt : QuizAttempt}
    {score : Nat} {response : List FeedbackItem} {db' : DB}
    (hfa : findAttempt db attemptId = some attempt)
    (h : submitQuiz db now requester attemptId answers = (.success score response, db')) :
    score = submittedCorrectCount db attempt.quiz answers ∧
    (∀ a ∈ db'.attempts, a.attempt_id = attempt.attempt_id → a.score = score) ∧
    (∀ q ∈ db.questions, q.quiz = attempt.quiz → q.id ∉ answers.map (fun p => p.fst) →
      (∀ sa ∈ db'.student_answers, sa.attempt = attempt.attempt_id → sa.question ≠ q.id) ∧
      ∃ item ∈ response, item.question_id = q.id ∧ item.question_text = q.text ∧
        item.selected_option_text = none ∧ item.is_correct = false ∧
        item.correct_option_text = (correctOption db q.id).map (fun a => a.text) ∧
        ((correctOption db q.id).isSome = true → ∃ t, item.correct_option_text = some t)) := by
  unfold submitQuiz at h
  rw [hfa] at h
  dsimp only at h
  split at h
  · simp at h
  next hreq =>
    split at h
    · simp at h
    next hlate =>
      split at h
      · simp at h
      next hnoex =>
        split at h
        next e herr => simp at h
        next rows cnt items hrec =>
          injection h with hL hdb
          injection hL with h1 h2
          subst h1 h2 hdb
          obtain ⟨hmap, hcnt, hall⟩ := processAnswers_ok hrec
          have hnoex' : ∀ sa ∈ db.student_answers, sa.attempt ≠ attempt.attempt_id := by
            intro sa hsa
            rw [Bool.not_eq_true, List.any_eq_false] at hnoex
            have := hnoex sa hsa
            simpa using this
          refine ⟨hcnt, ?_, ?_⟩
          · intro a ha hid
            simp only [List.mem_map] at ha
            obtain ⟨a₀, ha₀, rfl⟩ := ha
            by_cases hcond : (a₀.attempt_id == attempt.attempt_id) = true
            · simp [hcond]
            · rw [if_neg hcond] at hid ⊢
              exact absurd (beq_iff_eq.mpr hid) hcond
          · intro q hq hquiz hnotin
            constructor
            · intro sa hsa hatt
              rcases List.mem_append.mp hsa with hold | hnew
              · exact absurd hatt (hnoex' sa hold)
              · intro hqeq
                apply hnotin
                rw [← hmap]
                exact List.mem_map.mpr ⟨sa, hnew, hqeq ▸ rfl⟩
            · refine ⟨{ question_id := q.id, question_text := q.text
                        selected_option_text := none, is_correct := false
                        correct_option_text := (correctOption db q.id).map (fun a => a.text) },
                List.mem_append_right _ ?_, rfl, rfl, rfl, rfl, rfl, ?_⟩
              · unfold unansweredItems
                apply List.mem_filterMap.mpr
                refine ⟨q, List.mem_filter.mpr ⟨hq, by simp [hquiz]⟩, ?_⟩
                have hcontains : (rows.map (fun r => r.question)).contains q.id = false := by
                  rw [hmap]
                  simpa using hnotin
                rw [hcontains]
                simp
              · intro hsome
                obtain ⟨a, ha⟩ := Option.isSome_iff_exists.mp hsome
                exact ⟨a.text, by rw [ha]; rfl⟩

/-- Quiz `quizW` with two questions; the attempt `attW` is open and has no
recorded answers. -/
def dbC1 : DB :=
  { quizzes := [quizW]
    questions := [{ id := 10, quiz := 1, text := "Q1" }, { id := 11, quiz := 1, text := "Q2" }]
    answers := [{ id := 100, question := 10, text := "A", is_correct := true },
                { id := 101, question := 10, text := "B", is_correct := false },
                { id := 110, question := 11, text := "C", is_correct := true },
                { id := 111, question := 11, text := "D", is_correct := false }]
    attempts := [attW]
    student_answers := []
    enrollments := [{ student := 1, course := 1 }] }

/-- The response of submitting only question 10's correct option on `dbC1`:
score 1; the omitted question 11 is reported unanswered with its correct
option's text. -/
def responseC1 : List FeedbackItem :=
  [{ question_id := 10, question_text := "Q1", selected_option_text := some "A"
     is_correct := true, correct_option_text := none },
   { question_id := 11, question_text := "Q2", selected_option_text := none
     is_correct := false, correct_option_text := some "C" }]

/-- `dbC1` after the submission: one answer row, score persisted as 1. -/
def dbC1' : DB :=
  { dbC1 with
    student_answers := [{ attempt := 7, question := 10, selected_option := 100
                          is_correct := true }]
    attempts := [{ attempt_id := 7, quiz := 1, student := 1, score := 1
                   attempt_time := 0, end_time := 30 }] }

/-- Witness for C1: the spec's two scenarios at once — a correct answer
scores 1 with no `correct_option_text`, and the omitted question appears
unanswered with the correct text and no `StudentAnswer` row. -/
theorem submitQuiz_scoring_witness :
    submitQuiz dbC1 10 1 7 [(10, 100)] = (.success 1 responseC1, dbC1') ∧
    (1 = submittedCorrectCount dbC1 attW.quiz [(10, 100)] ∧
     (∀ a ∈ dbC1'.attempts, a.attempt_id = attW.attempt_id → a.score = 1) ∧
     (∀ q ∈ dbC1.questions, q.quiz = attW.quiz →
        q.id ∉ [(10, 100)].map (fun p => p.fst) →
        (∀ sa ∈ dbC1'.student_answers, sa.attempt = attW.attempt_id → sa.question ≠ q.id) ∧
        ∃ item ∈ responseC1, item.question_id = q.id ∧ item.question_text = q.text ∧
          item.selected_option_text = none ∧ item.is_correct = false ∧
          item.correct_option_text = (correctOption dbC1 q.id).map (fun a => a.text) ∧
          ((correctOption dbC1 q.id).isSome = true →
            ∃ t, item.correct_option_text = some t))) :=
  ⟨by decide,
    @submitQuiz_scoring dbC1 10 1 7 [(10, 100)] attW 1 responseC1 dbC1'
      (by decide) (by decide)⟩

/-! ### C3: the exactly-one-correct-answer invariant -/

/-- The set of answers under `q` contains exactly one `is_correct = true`
entry. -/
def exactlyOneCorrect (db : DB) (q : Question) : Prop :=
  (answersOf db q.id).countP (fun a => a.is_correct) = 1

/-- Every question of the database satisfies `exactlyOneCorrect`. -/
def answersInvariant (db : DB) : Prop :=
  ∀ q ∈ db.questions, exactlyOneCorrect db q

/-- Referential integrity of `Answer.question` (the `ForeignKey` the schema
enforces): every answer points at an existing question. -/
def fkAnswers (db : DB) : Prop :=
  ∀ a ∈ db.answers, ∃ q ∈ db.questions, q.id = a.question

theorem mem_le_foldr_max {l : List Nat} {x : Nat} (h : x ∈ l) : x ≤ l.foldr max 0 := by
  induction l with
  | nil => cases h
  | cons a l ih =>
    rcases List.mem_cons.mp h with rfl | h'
    · exact le_max_left _ _
    · exact le_trans (ih h') (le_max_right _ _)

theorem freshQuestionId_not_used {db : DB} {q : Question} (h : q ∈ db.questions) :
    q.id ≠ freshQuestionId db := by
  have hmem : q.id ∈ db.questions.map (fun q => q.id) :=
    List.mem_map.mpr ⟨q, h, rfl⟩
  have := mem_le_foldr_max hmem
  unfold freshQuestionId
  omega

theorem createQuestion_preserves {db : DB} {quizId : Nat} {p : QuestionPayload}
    (hinv : answersInvariant db) (hfk : fkAnswers db)
    (hv : validate_answers p.answers = true) :
    answersInvariant (createQuestionWithAnswers db quizId p) ∧
    fkAnswers (createQuestionWithAnswers db quizId p) := by
  have hv' : p.answers.countP (fun a => a.is_correct) = 1 := by
    unfold validate_answers at hv
    simpa using hv
  set qid := freshQuestionId db with hqid
  set base := freshAnswerId db with hbase
  set newAnswers : List Answer := p.answers.enum.map (fun ia =>
    { id := base + ia.fst, question := qid, text := ia.snd.text
      is_correct := ia.snd.is_correct }) with hnew
  have hdb' : createQuestionWithAnswers db quizId p =
      { db with questions := db.questions ++ [{ id := qid, quiz := quizId, text := p.text }]
                answers := db.answers ++ newAnswers } := rfl
  have hNewQuestion : ∀ a ∈ newAnswers, a.question = qid := by
    intro a ha
    rw [hnew] at ha
    simp only [List.mem_map] at ha
    obtain ⟨ia, _, rfl⟩ := ha
    rfl
  have hOldQuestion : ∀ a ∈ db.answers, a.question ≠ qid := by
    intro a ha
    obtain ⟨q, hqmem, hqeq⟩ := hfk a ha
    rw [← hqeq, hqid]
    exact freshQuestionId_not_used hqmem
  have hCount : newAnswers.countP (fun a => a.is_correct) = 1 := by
    rw [hnew, List.countP_map]
    have h1 : ((fun (a : Answer) => a.is_correct) ∘ (fun ia : Nat × AnswerPayload =>
        ({ id := base + ia.fst, question := qid, text := ia.snd.text
           is_correct := ia.snd.is_correct } : Answer)))
        = (fun a : AnswerPayload => a.is_correct) ∘ Prod.snd := rfl
    rw [h1, ← List.countP_map, List.enum_map_snd]
    exact hv'
  rw [hdb']
  constructor
  · intro q' hq'
    dsimp only at hq'
    unfold exactlyOneCorrect answersOf
    dsimp only
    rw [List.filter_append]
    rcases List.mem_append.mp hq' with hold | hfreshq
    · have hfil : newAnswers.filter (fun a => a.question == q'.id) = [] := by
        rw [List.filter_eq_nil_iff]
        intro a ha
        have hq := hNewQuestion a ha
        simp only [beq_iff_eq]
        rw [hq, hqid]
        exact fun hcon => freshQuestionId_not_used hold hcon.symm
      rw [hfil]
      simpa [exactlyOneCorrect, answersOf] using hinv q' hold
    · have hq'' : q' = { id := qid, quiz := quizId, text := p.text } := by
        simpa using hfreshq
      subst hq''
      have hfil1 : db.answers.filter
          (fun a => a.question == ({ id := qid, quiz := quizId, text := p.text } : Question).id)
          = [] := by
        rw [List.filter_eq_nil_iff]
        intro a ha
        simpa using hOldQuestion a ha
      have hfil2 : newAnswers.filter
          (fun a => a.question == ({ id := qid, quiz := quizId, text := p.text } : Question).id)
          = newAnswers := by
        rw [List.filter_eq_self]
        intro a ha
        simpa using hNewQuestion a ha
      rw [hfil1, hfil2]
      simpa using hCount
  · intro a ha
    dsimp only at ha
    rcases List.mem_append.mp ha with hold | hnewm
    · obtain ⟨q, hqm, hqe⟩ := hfk a hold
      exact ⟨q, List.mem_append_left _ hqm, hqe⟩
    · refine ⟨{ id := qid, quiz := quizId, text := p.text },
        List.mem_append_right _ (by simp), ?_⟩
      exact (hNewQuestion a hnewm).symm

theorem foldl_create_preserves :
    ∀ (payload : List QuestionPayload) (db : DB) (quizId : Nat),
      answersInvariant db → fkAnswers db →
      payload.all (fun p => validate_answers p.answers) = true →
      answersInvariant
        (payload.foldl (fun acc p => createQuestionWithAnswers acc quizId p) db) ∧
      fkAnswers
        (payload.foldl (fun acc p => createQuestionWithAnswers acc quizId p) db) := by
  intro payload
  induction payload with
  | nil => exact fun db quizId h1 h2 _ => ⟨h1, h2⟩
  | cons p rest ih =>
    intro db quizId h1 h2 hall
    rw [List.foldl_cons]
    rw [List.all_cons, Bool.and_eq_true] at hall
    obtain ⟨hc1, hc2⟩ := createQuestion_preserves h1 h2 hall.1
    exact ih _ _ hc1 hc2 hall.2

theorem applyPatch_question (patches : List AnswerPatch) (a : Answer) :
    (applyPatch patches a).question = a.question := by
  unfold applyPatch
  split <;> rfl

theorem applyPatch_is_correct (patches : List AnswerPatch) (a : Answer) :
    (applyPatch patches a).is_correct = mergedCorrect patches a := by
  unfold applyPatch mergedCorrect
  split <;> simp_all

theorem updateQuestion_preserves {db : DB} {quizId questionId : Nat}
    {tp : Option String} {patches : List AnswerPatch} {db₂ : DB}
    (hinv : answersInvariant db)
    (h : updateQuestion db quizId questionId tp patches = (.ok, db₂)) :
    answersInvariant db₂ := by
  unfold updateQuestion at h
  split at h
  · simp at h
  next quiz hq =>
    split at h
    · simp at h
    next question hfq =>
      dsimp only at h
      split at h
      · simp at h
      next hids =>
        split at h
        next hcount => simp at h
        next hcount =>
          have hone : ((answersOf db question.id).map
              (fun a => mergedCorrect patches a)).countP (fun b => b) = 1 := by
            simpa using hcount
          injection h with h1 h2
          subst h2
          intro q₂ hq₂
          dsimp only at hq₂
          simp only [List.mem_map] at hq₂
          obtain ⟨q₀, hq₀, rfl⟩ := hq₂
          have hq₂id : (if (q₀.id == question.id) = true
              then { q₀ with text := tp.getD q₀.text } else q₀).id = q₀.id := by
            split <;> rfl
          unfold exactlyOneCorrect answersOf
          dsimp only
          rw [hq₂id]
          have hfm : (db.answers.map (fun a =>
                if a.question == question.id then applyPatch patches a else a)).filter
              (fun a => a.question == q₀.id)
              = (db.answers.filter (fun a => a.question == q₀.id)).map (fun a =>
                if a.question == question.id then applyPatch patches a else a) := by
            rw [List.filter_map]
            congr 1
            apply List.filter_congr
            intro a _
            by_cases hcond : (a.question == question.id) = true
            · simp only [Function.comp]
              rw [if_pos hcond, applyPatch_question]
            · simp only [Function.comp]
              rw [if_neg hcond]
          rw [hfm, List.countP_map]
          by_cases hsame : q₀.id = question.id
          · rw [hsame]
            have hcg : ∀ a ∈ db.answers.filter (fun a => a.question == question.id),
                ((fun a => a.is_correct) ∘ (fun a =>
                  if a.question == question.id then applyPatch patches a else a)) a = true ↔
                mergedCorrect patches a = true := by
              intro a ha
              have haq : (a.question == question.id) = true := (List.mem_filter.mp ha).2
              simp only [Function.comp]
              rw [if_pos haq, applyPatch_is_correct]
            rw [List.countP_congr hcg]
            rw [List.countP_map] at hone
            simpa using hone
          · have hcg : ∀ a ∈ db.answers.filter (fun a => a.question == q₀.id),
                ((fun a => a.is_correct) ∘ (fun a =>
                  if a.question == question.id then applyPatch patches a else a)) a = true ↔
                a.is_correct = true := by
              intro a ha
              have haq : a.question = q₀.id := by
                simpa using (List.mem_filter.mp ha).2
              have hne : (a.question == question.id) = false := by
                rw [haq]
                simpa using hsame
              simp only [Function.comp]
              rw [hne]
              simp
            rw [List.countP_congr hcg]
            exact hinv q₀ hq₀

instance (db : DB) (q : Question) : Decidable (exactlyOneCorrect db q) := by
  unfold exactlyOneCorrect
  infer_instance

instance (db : DB) : Decidable (answersInvariant db) := by
  unfold answersInvariant
  infer_instance

instance (db : DB) : Decidable (fkAnswers db) := by
  unfold fkAnswers
  infer_instance

/-- C3: starting from a state satisfying the exactly-one-correct invariant
(and FK integrity), a question create or update that completes successfully
leaves every question with exactly one `is_correct = true` answer, and a
rejected create or update leaves the database untouched (all-or-nothing). -/
theorem questionOps_exactly_one_correct {db : DB}
    (hinv : answersInvariant db) (hfk : fkAnswers db) :
    (∀ quizId payload r db₁, addQuestions db quizId payload = (r, db₁) →
      (r = .ok → answersInvariant db₁) ∧ ∀ s d, r = .err s d → db₁ = db) ∧
    (∀ quizId questionId tp patches r db₂,
      updateQuestion db quizId questionId tp patches = (r, db₂) →
      (r = .ok → answersInvariant db₂) ∧ ∀ s d, r = .err s d → db₂ = db) := by
  constructor
  · intro quizId payload r db₁ h
    unfold addQuestions at h
    split at h
    · injection h with h1 h2
      subst h1 h2
      exact ⟨(fun hok => nomatch hok), fun s d _ => rfl⟩
    next quiz hq =>
      split at h
      · injection h with h1 h2
        subst h1 h2
        exact ⟨(fun hok => nomatch hok), fun s d _ => rfl⟩
      next hqe =>
        split at h
        · injection h with h1 h2
          subst h1 h2
          exact ⟨(fun hok => nomatch hok), fun s d _ => rfl⟩
        next hlen =>
          split at h
          next hall =>
            injection h with h1 h2
            subst h1 h2
            exact ⟨fun _ => (foldl_create_preserves payload db quiz.id hinv hfk hall).1,
              fun s d hr => nomatch hr⟩ 
          next hall =>
            injection h with h1 h2
            subst h1 h2
            exact ⟨(fun hok => nomatch hok), fun s d _ => rfl⟩
  · intro quizId questionId tp patches r db₂ h
    rcases r with _ | ⟨s, d⟩
    · exact ⟨fun _ => updateQuestion_preserves hinv h, fun s d hcon => nomatch hcon⟩
    · refine ⟨(fun hok => nomatch hok), fun s' d' hr' => ?_⟩
      unfold updateQuestion at h
      split at h
      · injection h with h1 h2
        exact h2.symm
      next quiz hq =>
        split at h
        · injection h with h1 h2
          exact h2.symm
        next question hfq =>
          dsimp only at h
          split at h
          · injection h with h1 h2
            exact h2.symm
          next hids =>
            split at h
            next =>
              injection h with h1 h2
              exact h2.symm
            next =>
              injection h with h1 h2
              cases h1

/-- `dbNoQuestions` after the one-time bulk creation of its single question
with options A (correct) and B. -/
def dbC3' : DB :=
  { dbNoQuestions with
    questions := [{ id := 1, quiz := 1, text := "Q1" }]
    answers := [{ id := 1, question := 1, text := "A", is_correct := true },
                { id := 2, question := 1, text := "B", is_correct := false }] }

/-- Witness for C3: the bulk create succeeds and every question of the result
has exactly one correct answer; an update that would make both options of
question 10 correct is rejected with the database unchanged. -/
theorem questionOps_exactly_one_correct_witness :
    addQuestions dbNoQuestions 1
      [{ text := "Q1", answers := [{ text := "A", is_correct := true },
                                   { text := "B", is_correct := false }] }] = (.ok, dbC3') ∧
    answersInvariant dbC3' ∧
    updateQuestion dbC1 1 10 none [{ id := 101, text := none, is_correct := some true }] =
      (.err 400 "Exactly one answer must be marked as correct after update.", dbC1) :=
  ⟨by decide,
   ((@questionOps_exactly_one_correct dbNoQuestions (by decide) (by decide)).1 1
      [{ text := "Q1", answers := [{ text := "A", is_correct := true },
                                   { text := "B", is_correct := false }] }] .ok dbC3'
      (by decide)).1 rfl,
   by decide⟩

end Acadex
